import Mathlib

/-!
Shallow embedding of `src/weather/weather.py` (an OpenWeatherMap client
exposing two text-producing operations, `get_alerts` and `get_forecast`)
together with theorems about its behaviour.

Modelling conventions:
* JSON numbers are modelled as exact rationals (`ℚ`); Python's float
  formatting (`:.1f`, `:.0f`) is modelled as exact decimal rounding with
  round-half-to-even ties, and plain interpolation of a number is modelled
  by `strNum` (exact decimal expansion, integral values without a decimal
  point).
* A missing JSON key is `none`; dictionary values the code reads are typed
  optional fields of structures.  Python dict falsiness (`if not d`) is
  modelled by an `isFalsy` predicate: a dict is falsy exactly when it has
  no keys at all, so each response structure carries an `extra : Bool`
  recording whether the raw dict had keys beyond the modelled ones.
* `datetime.fromtimestamp` uses the process-local timezone; it is modelled
  as a fixed offset `tz` (in seconds) added to the Unix timestamp before
  the civil-calendar conversion.
* A Python exception escaping the extraction code (KeyError, IndexError,
  ValueError) is modelled by the operation returning `none`; a returned
  text is `some s`.
* The HTTP layer is modelled by `HttpOutcome`: a transport failure, a
  timeout, or a response with a status code and an optional parsed body
  (`none` standing for a malformed, unparseable JSON body).
-/

attribute [local semireducible] Rat.mul Rat.add Rat.sub Rat.inv

/-! ## Numeric and time formatting helpers -/

/-- Zero-padded two-digit rendering of a natural number (strftime `%H` etc.). -/
def pad2 (n : Nat) : String :=
  if n < 10 then "0" ++ toString n else toString n

/-- Zero-padded four-digit rendering (strftime `%Y` for common years). -/
def pad4 (n : Nat) : String :=
  let s := toString n
  String.mk (List.replicate (4 - s.length) '0') ++ s

/-- Gregorian calendar date from a count of days since 1970-01-01
(Howard Hinnant's `civil_from_days` algorithm, as used by C and Python
time conversion). Returns (year, month, day). -/
def civilFromDays (z0 : Int) : Int × Nat × Nat :=
  let z := z0 + 719468
  let era := z.fdiv 146097
  let doe := (z - era * 146097).toNat
  let yoe := (doe - doe / 1460 + doe / 36524 - doe / 146096) / 365
  let doy := doe - (365 * yoe + yoe / 4 - yoe / 100)
  let mp := (5 * doy + 2) / 153
  let d := doy - (153 * mp + 2) / 5 + 1
  let m := if mp < 10 then mp + 3 else mp - 9
  let y := (yoe : Int) + era * 400
  (if m ≤ 2 then y + 1 else y, m, d)

/-- Rendering of an (integer) year, zero padded to four digits. -/
def padYear (y : Int) : String :=
  if y < 0 then "-" ++ pad4 y.natAbs else pad4 y.toNat

/-- strftime `%Y-%m-%d` of a Unix timestamp in local time (local time
modelled as the fixed offset `tz` in seconds). This is the key used to
group forecast entries by calendar day. -/
def dateKey (tz t : Int) : String :=
  let z := (t + tz).fdiv 86400
  let c := civilFromDays z
  padYear c.1 ++ "-" ++ pad2 c.2.1 ++ "-" ++ pad2 c.2.2

/-- strftime `%H:%M` of a Unix timestamp in local time. -/
def timeHM (tz t : Int) : String :=
  let s := ((t + tz).emod 86400).toNat
  pad2 (s / 3600) ++ ":" ++ pad2 (s % 3600 / 60)

/-- strftime `%H:%M:%S` of a Unix timestamp in local time. -/
def timeHMS (tz t : Int) : String :=
  let s := ((t + tz).emod 86400).toNat
  pad2 (s / 3600) ++ ":" ++ pad2 (s % 3600 / 60) ++ ":" ++ pad2 (s % 60)

/-- `format_unix_time` (weather.py line 28): strftime
`'%Y-%m-%d %H:%M:%S'` of `datetime.datetime.fromtimestamp(unix_time)`. -/
def format_unix_time (tz t : Int) : String :=
  dateKey tz t ++ " " ++ timeHMS tz t

/-- Round a rational to the nearest integer, ties to even (the rounding
used by Python `format(x, '.0f')` on exact values).  The floor of `q` is
computed as `q.num.fdiv q.den`, which keeps the definition
kernel-reducible. -/
def roundHalfEven (q : ℚ) : Int :=
  let n := q.num.fdiv (q.den : Int)
  let r := q - (n : ℚ)
  if r < 1 / 2 then n
  else if 1 / 2 < r then n + 1
  else if n % 2 = 0 then n else n + 1

/-- Python `f"{q:.0f}"` on an exact rational value. -/
def formatFixed0 (q : ℚ) : String :=
  toString (roundHalfEven q)

/-- Python `f"{q:.1f}"` on an exact rational value: round to the nearest
tenth (ties to even) and print with exactly one digit after the point. -/
def formatFixed1 (q : ℚ) : String :=
  let n := roundHalfEven (q * 10)
  (if n < 0 then "-" else "") ++ toString (n.natAbs / 10) ++ "." ++ toString (n.natAbs % 10)

/-- Decimal digits of the proper fraction `num/den` (`num < den`),
produced by long division, stopping at a zero remainder, with a fuel
bound (JSON-derived values terminate long before the bound). -/
def fracDigits : Nat → Nat → Nat → String
  | 0, _, _ => ""
  | _ + 1, 0, _ => ""
  | fuel + 1, num, den =>
    let num10 := num * 10
    toString (num10 / den) ++ fracDigits fuel (num10 % den) den

/-- Modelled rendering of a JSON number interpolated into an f-string:
exact decimal expansion, integral values without a decimal point.
(Python renders int-typed JSON values this way; float-typed integral
values would print a trailing `.0` — the distinction between the two
numeric JSON types is not carried by the `ℚ` model.) -/
def strNum (q : ℚ) : String :=
  let sign := if q < 0 then "-" else ""
  let n := q.num.natAbs
  let ip := n / q.den
  let rest := n % q.den
  if rest = 0 then sign ++ toString ip
  else sign ++ toString ip ++ "." ++ fracDigits 30 rest q.den

/-! ## The Request Executor (`make_weather_request`, weather.py lines 14-26) -/

/-- The outcome of the outbound HTTP GET, as seen by the `try` block of
`make_weather_request`: a transport-level failure, a timeout, or a
response carrying a status code and an optional parsed JSON body
(`none` when the body is not valid JSON, so `response.json()` raises). -/
inductive HttpOutcome (α : Type) where
  | transportError : HttpOutcome α
  | timeout : HttpOutcome α
  | response (status : Nat) (body : Option α) : HttpOutcome α
deriving DecidableEq

/-- `response.raise_for_status()` does not raise exactly for 2xx codes. -/
def isSuccessStatus (st : Nat) : Bool :=
  decide (200 ≤ st) && decide (st < 300)

/-- Whether an outcome lands in the `except` branch of
`make_weather_request` (anything but a 2xx response with a parseable body). -/
def httpFailed {α : Type} : HttpOutcome α → Bool
  | .transportError => true
  | .timeout => true
  | .response st body => !isSuccessStatus st || body.isNone

/-- The embedded API key (weather.py line 11). -/
def API_KEY : String := "d0716f49e52c54dcebeafde7ccf9b9cd"

/-- The query parameters actually sent: the caller's parameters plus the
injected credential (weather.py line 16). -/
def requestParams (params : List (String × String)) : List (String × String) :=
  params ++ [("appid", API_KEY)]

/-- `make_weather_request` (weather.py lines 14-26): performs the GET and
returns the parsed JSON on a 2xx response, `None` on any failure
(`raise_for_status` failure, transport error, timeout, or a JSON parse
error — all caught by the single `except`).  The endpoint and parameters
only shape the outbound URL, which is external to this model; the
diagnostic `print` on failure is a side channel not modelled. -/
def make_weather_request {α : Type} (endpoint : String)
    (params : List (String × String)) (o : HttpOutcome α) : Option α :=
  let _ := endpoint
  let _ := requestParams params
  match o with
  | .transportError => none
  | .timeout => none
  | .response st body => if isSuccessStatus st then body else none

/-! ## Data model of the provider responses -/

/-- One element of a `"weather"` condition list. -/
structure WeatherCond where
  main : Option String
  description : Option String
deriving DecidableEq

/-- The `"main"` measurement block. -/
structure MainBlock where
  temp : Option ℚ
  feels_like : Option ℚ
  temp_min : Option ℚ
  temp_max : Option ℚ
  humidity : Option ℚ
  pressure : Option ℚ
deriving DecidableEq

/-- The `"wind"` block. -/
structure WindBlock where
  speed : Option ℚ
  deg : Option ℚ
deriving DecidableEq

/-- The `"sys"` block of a current-weather response. -/
structure SysBlock where
  sunrise : Option Int
  sunset : Option Int
  country : Option String
deriving DecidableEq

/-- A parsed current-weather response.  `extra` records whether the raw
dict carried keys beyond the modelled ones (it matters only for the
dict-falsiness test `if not weather_data`). -/
structure CurrentResponse where
  weather : Option (List WeatherCond)
  main : Option MainBlock
  wind : Option WindBlock
  sys : Option SysBlock
  name : Option String
  extra : Bool
deriving DecidableEq

/-- Python falsiness of the current-weather dict: no keys at all. -/
def CurrentResponse.isFalsy (r : CurrentResponse) : Bool :=
  r.weather.isNone && r.main.isNone && r.wind.isNone && r.sys.isNone &&
    r.name.isNone && !r.extra

/-- The default `{}` used for a missing condition entry. -/
def emptyCond : WeatherCond := ⟨none, none⟩

/-- The default `{}` for a missing `"main"` block. -/
def emptyMain : MainBlock := ⟨none, none, none, none, none, none⟩

/-- The default `{}` for a missing `"wind"` block. -/
def emptyWind : WindBlock := ⟨none, none⟩

/-- The default `{}` for a missing `"sys"` block. -/
def emptySys : SysBlock := ⟨none, none, none⟩

/-- `d.get(key, 'N/A')` for a numeric field, interpolated into the report. -/
def renderNum : Option ℚ → String
  | some q => strNum q
  | none => "N/A"

/-- The sunrise/sunset rendering (weather.py lines 63-64):
`format_unix_time(...) if key in sys else "N/A"`. -/
def sunTimeStr (tz : Int) : Option Int → String
  | some t => format_unix_time tz t
  | none => "N/A"

/-! ## `get_alerts` (weather.py lines 34-76) -/

/-- `get_alerts` applied to the Request Executor's result (`resp`).
Returns `some text` when the Python function returns, `none` when the
extraction raises (which happens exactly when the `"weather"` key is
present but holds an empty list, making `[...][0]` an IndexError). -/
def get_alerts (tz : Int) (city country_code : String)
    (resp : Option CurrentResponse) : Option String :=
  let location := if country_code = "" then city else city ++ "," ++ country_code
  match resp with
  | none => some ("Unable to fetch data for location: " ++ location)
  | some r =>
    if r.isFalsy then some ("Unable to fetch data for location: " ++ location)
    else
      match r.weather.getD [emptyCond] with
      | [] => none
      | w :: _ =>
        let m := r.main.getD emptyMain
        let wd := r.wind.getD emptyWind
        let sys := r.sys.getD emptySys
        let sunrise := sunTimeStr tz sys.sunrise
        let sunset := sunTimeStr tz sys.sunset
        some ("Current Weather for " ++ r.name.getD location ++ ", " ++
          sys.country.getD "" ++ ":\n\nWeather: " ++ w.main.getD "Unknown" ++
          " - " ++ w.description.getD "Unknown" ++ "\nTemperature: " ++
          renderNum m.temp ++ "°C (Feels like: " ++ renderNum m.feels_like ++
          "°C)\nMin/Max: " ++ renderNum m.temp_min ++ "°C / " ++
          renderNum m.temp_max ++ "°C\nHumidity: " ++ renderNum m.humidity ++
          "%\nPressure: " ++ renderNum m.pressure ++ " hPa\nWind: " ++
          renderNum wd.speed ++ " m/s, Direction: " ++ renderNum wd.deg ++
          "°\n" ++ "Sunrise: " ++ sunrise ++ "\nSunset: " ++ sunset ++ "\n")

/-! ## Data model of the forecast response -/

/-- The `"city"` metadata block of a forecast response. -/
structure CityBlock where
  name : Option String
  country : Option String
deriving DecidableEq

/-- One element of the forecast `"list"`. -/
structure ForecastEntry where
  dt : Option Int
  main : Option MainBlock
  weather : Option (List WeatherCond)
  wind : Option WindBlock
deriving DecidableEq

/-- A parsed forecast response (`extra` as in `CurrentResponse`). -/
structure ForecastResponse where
  city : Option CityBlock
  list : Option (List ForecastEntry)
  extra : Bool
deriving DecidableEq

/-- Python falsiness of the forecast dict: no keys at all. -/
def ForecastResponse.isFalsy (r : ForecastResponse) : Bool :=
  r.city.isNone && r.list.isNone && !r.extra

/-- The default `{}` for a missing `"city"` block. -/
def emptyCity : CityBlock := ⟨none, none⟩

/-! ## `get_forecast` (weather.py lines 79-150) -/

/-- Sequence a list of optional computations; `none` as soon as one
fails (the Option analogue of a Python loop that may raise). -/
def optMap {α β : Type} (f : α → Option β) : List α → Option (List β)
  | [] => some []
  | a :: l =>
    match f a, optMap f l with
    | some b, some bs => some (b :: bs)
    | _, _ => none

/-- Python `min(...)` over a non-empty sequence (`ValueError`, i.e.
`none`, on an empty one). -/
def listMin (l : List ℚ) : Option ℚ :=
  match l with
  | [] => none
  | x :: xs => some (xs.foldl min x)

/-- Python `max(...)` over a non-empty sequence. -/
def listMax (l : List ℚ) : Option ℚ :=
  match l with
  | [] => none
  | x :: xs => some (xs.foldl max x)

/-- The calendar-day grouping key of a forecast entry
(`datetime.datetime.fromtimestamp(item["dt"]).strftime('%Y-%m-%d')`,
weather.py line 107).  Defined via `getD 0` so it is total; the grouping
itself demands `dt` be present. -/
def entryDate (tz : Int) (e : ForecastEntry) : String :=
  dateKey tz (e.dt.getD 0)

/-- The dates derived from a series of entries, in series order. -/
def datesOf (tz : Int) (es : List ForecastEntry) : List String :=
  es.map (entryDate tz)

/-- One step of building the insertion-ordered dict `forecasts_by_day`
(weather.py lines 109-112): append the entry to the existing bucket of
`k`, or add a new `(k, [e])` bucket at the end. -/
def addToGroups (gs : List (String × List ForecastEntry)) (k : String)
    (e : ForecastEntry) : List (String × List ForecastEntry) :=
  match gs with
  | [] => [(k, [e])]
  | p :: rest =>
    if p.1 = k then (p.1, p.2 ++ [e]) :: rest else p :: addToGroups rest k e

/-- The grouping loop (weather.py lines 104-112) over the remaining
entries, with `gs` the insertion-ordered dict built so far; `none` when
an entry lacks the `"dt"` key (`item["dt"]` raises KeyError). -/
def groupByDayAux (tz : Int) (gs : List (String × List ForecastEntry)) :
    List ForecastEntry → Option (List (String × List ForecastEntry))
  | [] => some gs
  | e :: es =>
    match e.dt with
    | none => none
    | some t => groupByDayAux tz (addToGroups gs (dateKey tz t) e) es

/-- `forecasts_by_day` as an insertion-ordered association list. -/
def groupByDay (tz : Int) (es : List ForecastEntry) :
    Option (List (String × List ForecastEntry)) :=
  groupByDayAux tz [] es

/-- The representative description of a day bucket (weather.py lines
121-125): the entry at index `len(items) // 2` ("Unknown" when the
bucket is empty — unreachable — or when that entry's condition list is
missing or empty); `none` when the chosen condition entry lacks the
`"description"` key (KeyError). -/
def dayDesc (items : List ForecastEntry) : Option String :=
  match items.get? (items.length / 2) with
  | some mi =>
    match mi.weather with
    | some (c :: _) => c.description
    | _ => some "Unknown"
  | none => some "Unknown"

/-- One hourly detail line (weather.py lines 141-146): strftime `%H:%M`
of `item["dt"]`, `item["main"]["temp"]` to one decimal, and
`item["weather"][0]["description"] if item["weather"] else "Unknown"`.
`none` when `dt`, the `main` block, its `temp`, the `weather` key, or a
needed `description` is missing (KeyError). -/
def hourlyLine (tz : Int) (it : ForecastEntry) : Option String :=
  match it.dt with
  | none => none
  | some t =>
    match it.main with
    | none => none
    | some m =>
      match m.temp with
      | none => none
      | some temp =>
        match it.weather with
        | none => none
        | some w =>
          match (match w with
                 | [] => some "Unknown"
                 | c :: _ => c.description) with
          | none => none
          | some desc =>
            some ("  " ++ timeHM tz t ++ ": " ++ formatFixed1 temp ++
              "°C, " ++ desc ++ "\n")

/-- The aggregate header of one day block (weather.py lines 117-139,
before the hourly lines): min of `temp_min`, max of `temp_max`,
representative description, mean humidity (`:.0f`) and mean wind speed
(`:.1f`); `none` when a required key is missing or the bucket is empty
(unreachable). -/
def dayBase (date : String) (items : List ForecastEntry) :
    Option String :=
  match optMap (fun it => it.main.bind MainBlock.temp_min) items with
  | none => none
  | some mins =>
    match listMin mins with
    | none => none
    | some minT =>
      match optMap (fun it => it.main.bind MainBlock.temp_max) items with
      | none => none
      | some maxs =>
        match listMax maxs with
        | none => none
        | some maxT =>
          match dayDesc items with
          | none => none
          | some desc =>
            match optMap (fun it => it.main.bind MainBlock.humidity) items with
            | none => none
            | some hums =>
              match optMap (fun it => it.wind.bind WindBlock.speed) items with
              | none => none
              | some winds =>
                some ("\nDate: " ++ date ++ "\nTemperature: Min: " ++
                  formatFixed1 minT ++ "°C, Max: " ++ formatFixed1 maxT ++
                  "°C\nWeather: " ++ desc ++ "\nAvg. Humidity: " ++
                  formatFixed0 (hums.sum / (items.length : ℚ)) ++
                  "%\nAvg. Wind Speed: " ++
                  formatFixed1 (winds.sum / (items.length : ℚ)) ++
                  " m/s\n\nHourly Details:\n")

/-- One full rendered day block: the aggregate header followed by the
hourly lines of the first four entries of the bucket (weather.py line
141: `items[:4]`), each line ending in a newline. -/
def formatDay (tz : Int) (p : String × List ForecastEntry) : Option String :=
  match dayBase p.1 p.2 with
  | none => none
  | some base =>
    match optMap (hourlyLine tz) (p.2.take 4) with
    | none => none
    | some lines => some (base ++ String.join lines)

/-- `get_forecast` applied to the Request Executor's result.  Returns
`some text` when the Python function returns, `none` when the
extraction raises. -/
def get_forecast (tz : Int) (lat lon : ℚ) (resp : Option ForecastResponse) :
    Option String :=
  match resp with
  | none =>
    some ("Unable to fetch forecast data for location at coordinates: " ++
      strNum lat ++ ", " ++ strNum lon)
  | some r =>
    if r.isFalsy then
      some ("Unable to fetch forecast data for location at coordinates: " ++
        strNum lat ++ ", " ++ strNum lon)
    else
      let city := r.city.getD emptyCity
      let city_name := city.name.getD "Unknown Location"
      let country := city.country.getD ""
      match groupByDay tz (r.list.getD []) with
      | none => none
      | some gs =>
        match optMap (formatDay tz) (gs.take 5) with
        | none => none
        | some blocks =>
          some ("5-Day Weather Forecast for " ++ city_name ++ ", " ++
            country ++ "\n" ++ String.intercalate "\n---\n" blocks)

/-! ## Analysis helpers for the grouping step -/

/-- The keys of an insertion-ordered association list, in order. -/
def keysOf (gs : List (String × List ForecastEntry)) : List String :=
  gs.map Prod.fst

/-- Lookup of a bucket by key (empty for a missing key). -/
def bucketOf : List (String × List ForecastEntry) → String → List ForecastEntry
  | [], _ => []
  | p :: rest, k => if p.1 = k then p.2 else bucketOf rest k

/-- First occurrences of the elements of a list, in encounter order,
skipping elements already seen. -/
def dfAux (seen : List String) : List String → List String
  | [] => []
  | k :: ks => if k ∈ seen then dfAux seen ks else k :: dfAux (k :: seen) ks

/-- The distinct elements of a list in first-encounter order. -/
def distinctFirst (l : List String) : List String :=
  dfAux [] l

/-! ## Concrete example inputs used in witnesses and counterexamples -/

/-- A current-weather response parsed from the JSON document `{}`. -/
def emptyCurrent : CurrentResponse := ⟨none, none, none, none, none, false⟩

/-- A forecast response parsed from the JSON document `{}`. -/
def emptyForecastR : ForecastResponse := ⟨none, none, false⟩

/-- A clear-sky condition entry. -/
def condClear : WeatherCond := ⟨some "Clear", some "clear"⟩

/-- A fully populated measurement block. -/
def wMain : MainBlock := ⟨some 15, some 14, some 10, some 20, some 50, some 1000⟩

/-- A fully populated wind block. -/
def wWind : WindBlock := ⟨some 3, some 90⟩

/-- A fully populated forecast entry at Unix time 0. -/
def w1 : ForecastEntry := ⟨some 0, some wMain, some [condClear], some wWind⟩

/-- A fully populated forecast entry three hours later, same day. -/
def w2 : ForecastEntry := ⟨some 10800, some wMain, some [condClear], some wWind⟩

/-- A fully populated forecast entry on the following day. -/
def w3 : ForecastEntry := ⟨some 90000, some wMain, some [condClear], some wWind⟩

/-- A forecast entry that is missing its `"wind"` block. -/
def c1Entry : ForecastEntry := ⟨some 1700000000, some wMain, some [condClear], none⟩

/-- A well-formed forecast response whose single entry lacks the wind block. -/
def c1Resp : ForecastResponse :=
  ⟨some ⟨some "London", some "GB"⟩, some [c1Entry], false⟩

/-- A small well-formed forecast response with one fully populated entry. -/
def c3Resp : ForecastResponse := ⟨some ⟨some "Paris", some "FR"⟩, some [w1], false⟩

/-- The day block `get_forecast` renders for `c3Resp`. -/
def c3Block : String :=
  "\nDate: 1970-01-01\nTemperature: Min: 10.0°C, Max: 20.0°C\nWeather: clear\nAvg. Humidity: 50%\nAvg. Wind Speed: 3.0 m/s\n\nHourly Details:\n  00:00: 15.0°C, clear\n"

/-- Bucket entry with temp_min 10, temp_max 20, humidity 50, wind 1. -/
def c4a : ForecastEntry :=
  ⟨some 0, some ⟨some 15, none, some 10, some 20, some 50, none⟩,
   some [⟨some "Clouds", some "scattered clouds"⟩], some ⟨some 1, none⟩⟩

/-- Bucket entry with temp_min 12, temp_max 22, humidity 60, wind 2. -/
def c4b : ForecastEntry :=
  ⟨some 10800, some ⟨some 16, none, some 12, some 22, some 60, none⟩,
   some [⟨some "Clouds", some "scattered clouds"⟩], some ⟨some 2, none⟩⟩

/-- Bucket entry with temp_min 9, temp_max 21, humidity 70, wind 3. -/
def c4c : ForecastEntry :=
  ⟨some 21600, some ⟨some 17, none, some 9, some 21, some 70, none⟩,
   some [⟨some "Clouds", some "scattered clouds"⟩], some ⟨some 3, none⟩⟩

/-- A bucket entry whose condition list is present but empty. -/
def c6First : ForecastEntry := ⟨some 0, some wMain, some [], some wWind⟩

/-- A bucket entry whose own description is "rain". -/
def c6Second : ForecastEntry :=
  ⟨some 10800, some wMain, some [⟨some "Rain", some "rain"⟩], some wWind⟩

/-- A current-weather response with a sunrise timestamp but no sunset. -/
def c9Resp : CurrentResponse :=
  ⟨some [⟨some "Rain", some "light rain"⟩], none, none,
   some ⟨some 1700000000, none, some "GB"⟩, some "London", false⟩

/-- A non-empty current-weather response missing all optional blocks. -/
def c1Alerts : CurrentResponse := ⟨none, none, none, none, some "London", false⟩

/-- A current-weather response with a mixed pattern of present and missing
sub-fields: main present but feels_like/temp_min/pressure missing, wind
block missing, sys present but sunrise/country missing. -/
def c1Partial : CurrentResponse :=
  ⟨some [condClear], some ⟨some 15, none, none, some 20, some 50, none⟩,
   none, some ⟨none, some 1700000000, none⟩, some "London", false⟩

theorem bucketOf_addToGroups_same (gs : List (String × List ForecastEntry))
    (k : String) (e : ForecastEntry) :
    bucketOf (addToGroups gs k e) k = bucketOf gs k ++ [e] := by
  induction gs with
  | nil => simp [addToGroups, bucketOf]
  | cons p rest ih =>
    by_cases h : p.1 = k
    · simp [addToGroups, bucketOf, h]
    · simp [addToGroups, bucketOf, h, ih]

theorem bucketOf_addToGroups_ne (gs : List (String × List ForecastEntry))
    (k : String) (e : ForecastEntry) (k' : String) (h : k' ≠ k) :
    bucketOf (addToGroups gs k e) k' = bucketOf gs k' := by
  have hkk : ¬ k = k' := fun hh => h hh.symm
  induction gs with
  | nil => simp [addToGroups, bucketOf, hkk]
  | cons p rest ih =>
    by_cases hp : p.1 = k
    · simp [addToGroups, bucketOf, hp, hkk]
    · by_cases hp' : p.1 = k'
      · simp [addToGroups, bucketOf, hp, hp', h]
      · simp [addToGroups, bucketOf, hp, hp', ih]

theorem keysOf_addToGroups (gs : List (String × List ForecastEntry))
    (k : String) (e : ForecastEntry) :
    keysOf (addToGroups gs k e) =
      if k ∈ keysOf gs then keysOf gs else keysOf gs ++ [k] := by
  induction gs with
  | nil => simp [addToGroups, keysOf]
  | cons p rest ih =>
    by_cases h : p.1 = k
    · simp [addToGroups, keysOf, h]
    · simp only [addToGroups, if_neg h]
      have hL : keysOf (p :: addToGroups rest k e) =
          p.1 :: keysOf (addToGroups rest k e) := by simp [keysOf]
      have hcons : keysOf (p :: rest) = p.1 :: keysOf rest := by simp [keysOf]
      rw [hL, ih]
      by_cases hk : k ∈ keysOf rest
      · rw [if_pos hk, if_pos (by rw [hcons]; exact List.mem_cons_of_mem _ hk), hcons]
      · have hnk : k ∉ keysOf (p :: rest) := by
          rw [hcons]
          simp only [List.mem_cons]
          rintro (hh | hh)
          · exact h hh.symm
          · exact hk hh
        rw [if_neg hk, if_neg hnk, hcons]
        simp

theorem dfAux_append_singleton (l : List String) :
    ∀ (seen : List String) (k : String),
      dfAux seen (l ++ [k]) =
        if k ∈ seen ∨ k ∈ l then dfAux seen l else dfAux seen l ++ [k] := by
  induction l with
  | nil =>
    intro seen k
    by_cases h : k ∈ seen <;> simp [dfAux, h]
  | cons a l ih =>
    intro seen k
    rw [List.cons_append]
    by_cases ha : a ∈ seen
    · rw [show dfAux seen (a :: (l ++ [k])) = dfAux seen (l ++ [k]) from
        if_pos ha, ih, show dfAux seen (a :: l) = dfAux seen l from if_pos ha]
      have hiff : (k ∈ seen ∨ k ∈ a :: l) ↔ (k ∈ seen ∨ k ∈ l) := by
        constructor
        · rintro (h | h)
          · exact Or.inl h
          · rcases List.mem_cons.mp h with rfl | h
            · exact Or.inl ha
            · exact Or.inr h
        · rintro (h | h)
          · exact Or.inl h
          · exact Or.inr (List.mem_cons_of_mem _ h)
      rw [if_congr hiff rfl rfl]
    · rw [show dfAux seen (a :: (l ++ [k])) =
          a :: dfAux (a :: seen) (l ++ [k]) from if_neg ha,
        ih, show dfAux seen (a :: l) = a :: dfAux (a :: seen) l from if_neg ha]
      have hiff : (k ∈ a :: seen ∨ k ∈ l) ↔ (k ∈ seen ∨ k ∈ a :: l) := by
        simp only [List.mem_cons]
        tauto
      by_cases hk : k ∈ seen ∨ k ∈ a :: l
      · rw [if_pos (hiff.mpr hk), if_pos hk]
      · rw [if_neg (fun hh => hk (hiff.mp hh)), if_neg hk]
        simp

theorem mem_of_mem_dfAux (l : List String) :
    ∀ (seen : List String) (a : String), a ∈ dfAux seen l → a ∈ l := by
  induction l with
  | nil => intro seen a h; simp [dfAux] at h
  | cons b l ih =>
    intro seen a h
    by_cases hb : b ∈ seen
    · simp only [dfAux, if_pos hb] at h
      exact List.mem_cons_of_mem _ (ih seen a h)
    · simp only [dfAux, if_neg hb] at h
      rcases List.mem_cons.mp h with rfl | h
      · exact List.mem_cons_self a l
      · exact List.mem_cons_of_mem _ (ih (b :: seen) a h)

theorem mem_dfAux_of_mem (l : List String) :
    ∀ (seen : List String) (a : String), a ∈ l → a ∉ seen → a ∈ dfAux seen l := by
  induction l with
  | nil => intro seen a h; simp at h
  | cons b l ih =>
    intro seen a h hns
    by_cases hab : a = b
    · subst hab
      simp only [dfAux, if_neg hns]
      exact List.mem_cons_self a _
    · have hl : a ∈ l := by
        rcases List.mem_cons.mp h with rfl | h
        · exact absurd rfl hab
        · exact h
      by_cases hb : b ∈ seen
      · simp only [dfAux, if_pos hb]
        exact ih seen a hl hns
      · simp only [dfAux, if_neg hb]
        refine List.mem_cons_of_mem _ (ih (b :: seen) a hl ?_)
        simp only [List.mem_cons]
        rintro (rfl | h)
        · exact hab rfl
        · exact hns h

theorem mem_distinctFirst (l : List String) (a : String) :
    a ∈ distinctFirst l ↔ a ∈ l := by
  constructor
  · exact mem_of_mem_dfAux l [] a
  · intro h
    exact mem_dfAux_of_mem l [] a h (by simp)

theorem dfAux_nodup (l : List String) :
    ∀ (seen : List String),
      (dfAux seen l).Nodup ∧ ∀ a ∈ dfAux seen l, a ∉ seen := by
  induction l with
  | nil => intro seen; simp [dfAux]
  | cons b l ih =>
    intro seen
    by_cases hb : b ∈ seen
    · simpa [dfAux, hb] using ih seen
    · simp only [dfAux, if_neg hb]
      obtain ⟨hnd, hni⟩ := ih (b :: seen)
      constructor
      · refine List.nodup_cons.mpr ⟨fun hmem => ?_, hnd⟩
        exact (hni b hmem) (List.mem_cons_self b seen)
      · intro a ha
        rcases List.mem_cons.mp ha with rfl | ha
        · exact hb
        · exact fun hs => (hni a ha) (List.mem_cons_of_mem _ hs)

theorem distinctFirst_nodup (l : List String) : (distinctFirst l).Nodup :=
  (dfAux_nodup l []).1

theorem groupByDayAux_spec (tz : Int) (es : List ForecastEntry) :
    ∀ (done : List ForecastEntry) (gs : List (String × List ForecastEntry)),
      (∀ e ∈ es, (e.dt).isSome = true) →
      keysOf gs = distinctFirst (datesOf tz done) →
      (∀ k, bucketOf gs k = done.filter (fun e => entryDate tz e == k)) →
      ∃ gs', groupByDayAux tz gs es = some gs' ∧
        keysOf gs' = distinctFirst (datesOf tz (done ++ es)) ∧
        ∀ k, bucketOf gs' k = (done ++ es).filter (fun e => entryDate tz e == k) := by
  induction es with
  | nil =>
    intro done gs _ hkeys hbuck
    exact ⟨gs, rfl, by simpa using hkeys, by simpa using hbuck⟩
  | cons e es ih =>
    intro done gs h hkeys hbuck
    obtain ⟨t, ht⟩ : ∃ t, e.dt = some t := by
      have := h e (List.mem_cons_self e es)
      cases hdt : e.dt with
      | none => rw [hdt] at this; simp at this
      | some t => exact ⟨t, rfl⟩
    have hkey : dateKey tz t = entryDate tz e := by simp [entryDate, ht]
    have h2 : ∀ e' ∈ es, (e'.dt).isSome = true :=
      fun e' he' => h e' (List.mem_cons_of_mem _ he')
    have hkeys' : keysOf (addToGroups gs (dateKey tz t) e) =
        distinctFirst (datesOf tz (done ++ [e])) := by
      rw [keysOf_addToGroups, hkey]
      have hdates : datesOf tz (done ++ [e]) = datesOf tz done ++ [entryDate tz e] := by
        simp [datesOf]
      rw [hdates]
      unfold distinctFirst
      rw [dfAux_append_singleton]
      have hmem : (entryDate tz e ∈ keysOf gs) ↔ entryDate tz e ∈ datesOf tz done := by
        rw [hkeys]
        exact mem_distinctFirst _ _
      by_cases hin : entryDate tz e ∈ datesOf tz done
      · rw [if_pos (hmem.mpr hin), if_pos (Or.inr hin), hkeys]
        rfl
      · rw [if_neg (fun hh => hin (hmem.mp hh)),
          if_neg (by simpa using hin), hkeys]
        rfl
    have hbuck' : ∀ k, bucketOf (addToGroups gs (dateKey tz t) e) k =
        (done ++ [e]).filter (fun x => entryDate tz x == k) := by
      intro k
      rw [List.filter_append]
      by_cases hk : k = entryDate tz e
      · subst hk
        rw [hkey, bucketOf_addToGroups_same, hbuck]
        simp [List.filter]
      · rw [hkey, bucketOf_addToGroups_ne _ _ _ _ hk, hbuck]
        have : (entryDate tz e == k) = false := by
          simp only [beq_eq_false_iff_ne, ne_eq]
          exact fun hh => hk hh.symm
        simp [List.filter, this]
    obtain ⟨gs', hrun, hk', hb'⟩ :=
      ih (done ++ [e]) (addToGroups gs (dateKey tz t) e) h2 hkeys' hbuck'
    have heq : (done ++ [e]) ++ es = done ++ e :: es := by
      rw [List.append_assoc, List.singleton_append]
    rw [heq] at hk' hb'
    exact ⟨gs', by simpa [groupByDayAux, ht] using hrun, hk', hb'⟩

theorem groupByDayAux_dt (tz : Int) (es : List ForecastEntry) :
    ∀ (gs gs' : List (String × List ForecastEntry)),
      groupByDayAux tz gs es = some gs' → ∀ e ∈ es, (e.dt).isSome = true := by
  induction es with
  | nil => intro gs gs' _ e he; simp at he
  | cons e es ih =>
    intro gs gs' hrun e' he'
    cases hdt : e.dt with
    | none => rw [groupByDayAux, hdt] at hrun; simp at hrun
    | some t =>
      rcases List.mem_cons.mp he' with rfl | he'
      · simp [hdt]
      · rw [groupByDayAux, hdt] at hrun
        exact ih _ _ hrun e' he'

/-- A bucket listed in an association list with distinct keys is the one
`bucketOf` finds. -/
theorem bucketOf_of_mem (gs : List (String × List ForecastEntry))
    (hnd : (keysOf gs).Nodup) :
    ∀ p ∈ gs, bucketOf gs p.1 = p.2 := by
  induction gs with
  | nil => simp
  | cons q rest ih =>
    intro p hp
    have hcons : keysOf (q :: rest) = q.1 :: keysOf rest := by simp [keysOf]
    rw [hcons] at hnd
    obtain ⟨hq, hrest⟩ := List.nodup_cons.mp hnd
    rcases List.mem_cons.mp hp with rfl | hp
    · simp [bucketOf]
    · have hne : ¬ q.1 = p.1 := by
        intro hh
        exact hq (hh ▸ List.mem_map_of_mem Prod.fst hp)
      simp only [bucketOf, if_neg hne]
      exact ih hrest p hp

/-- Full specification of the grouping step: on a series whose entries
all carry a timestamp, grouping succeeds; the bucket keys are the
distinct derived dates in first-encounter order; each listed bucket is
exactly the subsequence of entries whose derived date is its key; and
every bucket is non-empty. -/
theorem groupByDay_spec (tz : Int) (es : List ForecastEntry)
    (h : ∀ e ∈ es, (e.dt).isSome = true) :
    ∃ gs, groupByDay tz es = some gs ∧
      keysOf gs = distinctFirst (datesOf tz es) ∧
      (∀ k, bucketOf gs k = es.filter (fun e => entryDate tz e == k)) ∧
      (∀ p ∈ gs, p.2 = es.filter (fun e => entryDate tz e == p.1)) ∧
      (∀ p ∈ gs, p.2 ≠ []) := by
  obtain ⟨gs, hrun, hkeys, hbuck⟩ :=
    groupByDayAux_spec tz es [] [] h (by simp [keysOf, distinctFirst, datesOf, dfAux]) (by simp [bucketOf])
  simp only [List.nil_append] at hkeys hbuck
  have hnd : (keysOf gs).Nodup := by
    rw [hkeys]; exact distinctFirst_nodup _
  have hmem : ∀ p ∈ gs, p.2 = es.filter (fun e => entryDate tz e == p.1) := by
    intro p hp
    rw [← hbuck p.1]
    exact (bucketOf_of_mem gs hnd p hp).symm
  refine ⟨gs, hrun, hkeys, hbuck, hmem, ?_⟩
  intro p hp
  have hkey : p.1 ∈ keysOf gs := List.mem_map_of_mem Prod.fst hp
  rw [hkeys] at hkey
  have hdate : p.1 ∈ datesOf tz es := (mem_distinctFirst _ _).mp hkey
  obtain ⟨e, he, hde⟩ := List.mem_map.mp hdate
  have hef : e ∈ es.filter (fun e => entryDate tz e == p.1) :=
    List.mem_filter.mpr ⟨he, by simp [hde]⟩
  rw [hmem p hp]
  exact List.ne_nil_of_mem hef

/-! ## Helper lemmas about `optMap`, `listMin`, `listMax` -/

theorem optMap_length {α β : Type} (f : α → Option β) :
    ∀ (l : List α) (l' : List β), optMap f l = some l' → l'.length = l.length := by
  intro l
  induction l with
  | nil =>
    intro l' h
    simp only [optMap, Option.some.injEq] at h
    simp [← h]
  | cons a l ih =>
    intro l' h
    simp only [optMap] at h
    cases hfa : f a with
    | none => rw [hfa] at h; simp at h
    | some b =>
      rw [hfa] at h
      cases hrec : optMap f l with
      | none => rw [hrec] at h; simp at h
      | some bs =>
        rw [hrec] at h
        simp only [Option.some.injEq] at h
        rw [← h]
        simp [ih bs hrec]

theorem optMap_get {α β : Type} (f : α → Option β) :
    ∀ (l : List α) (l' : List β), optMap f l = some l' →
      ∀ (i : Nat) (a : α) (b : β),
        l.get? i = some a → l'.get? i = some b → f a = some b := by
  intro l
  induction l with
  | nil => intro l' _ i a b ha; simp at ha
  | cons x l ih =>
    intro l' h i a b ha hb
    simp only [optMap] at h
    cases hfa : f x with
    | none => rw [hfa] at h; simp at h
    | some y =>
      rw [hfa] at h
      cases hrec : optMap f l with
      | none => rw [hrec] at h; simp at h
      | some ys =>
        rw [hrec] at h
        simp only [Option.some.injEq] at h
        cases i with
        | zero =>
          rw [← h] at hb
          simp only [List.get?] at ha hb
          cases ha; cases hb
          exact hfa
        | succ j =>
          rw [← h] at hb
          simp only [List.get?] at ha hb
          exact ih ys hrec j a b ha hb

theorem optMap_mem_some {α β : Type} (f : α → Option β) :
    ∀ (l : List α) (l' : List β), optMap f l = some l' →
      ∀ a ∈ l, ∃ b, f a = some b := by
  intro l
  induction l with
  | nil => intro l' _ a ha; simp at ha
  | cons x l ih =>
    intro l' h a ha
    simp only [optMap] at h
    cases hfx : f x with
    | none => rw [hfx] at h; simp at h
    | some y =>
      rw [hfx] at h
      cases hrec : optMap f l with
      | none => rw [hrec] at h; simp at h
      | some ys =>
        rcases List.mem_cons.mp ha with rfl | ha
        · exact ⟨y, hfx⟩
        · exact ih ys hrec a ha

theorem optMap_none_of_mem {α β : Type} (f : α → Option β) :
    ∀ (l : List α) (a : α), a ∈ l → f a = none → optMap f l = none := by
  intro l
  induction l with
  | nil => intro a ha _; simp at ha
  | cons x l ih =>
    intro a ha hfa
    rcases List.mem_cons.mp ha with rfl | ha
    · simp [optMap, hfa]
    · simp only [optMap]
      rw [ih a ha hfa]
      cases f x <;> rfl

/-- A successful `dayBase` requires every per-entry measurement lookup to
have succeeded. -/
theorem dayBase_stages (date : String) (items : List ForecastEntry)
    (base : String) (h : dayBase date items = some base) :
    (∃ mins, optMap (fun it => it.main.bind MainBlock.temp_min) items = some mins) ∧
    (∃ maxs, optMap (fun it => it.main.bind MainBlock.temp_max) items = some maxs) ∧
    (∃ hums, optMap (fun it => it.main.bind MainBlock.humidity) items = some hums) ∧
    (∃ winds, optMap (fun it => it.wind.bind WindBlock.speed) items = some winds) := by
  unfold dayBase at h
  split at h
  · simp at h
  · split at h
    · simp at h
    · split at h
      · simp at h
      · split at h
        · simp at h
        · split at h
          · simp at h
          · split at h
            · simp at h
            · split at h
              · simp at h
              · exact ⟨⟨_, by assumption⟩, ⟨_, by assumption⟩,
                  ⟨_, by assumption⟩, ⟨_, by assumption⟩⟩

theorem foldl_min_mem (xs : List ℚ) : ∀ x : ℚ, xs.foldl min x ∈ x :: xs := by
  induction xs with
  | nil => intro x; simp
  | cons y xs ih =>
    intro x
    rw [List.foldl_cons]
    rcases List.mem_cons.mp (ih (min x y)) with h | h
    · rcases min_choice x y with hm | hm
      · rw [h, hm]; exact List.mem_cons_self _ _
      · rw [h, hm]; exact List.mem_cons_of_mem _ (List.mem_cons_self _ _)
    · exact List.mem_cons_of_mem _ (List.mem_cons_of_mem _ h)

theorem foldl_min_le (xs : List ℚ) :
    ∀ x : ℚ, xs.foldl min x ≤ x ∧ ∀ y ∈ xs, xs.foldl min x ≤ y := by
  induction xs with
  | nil => intro x; simp
  | cons z xs ih =>
    intro x
    rw [List.foldl_cons]
    obtain ⟨h1, h2⟩ := ih (min x z)
    refine ⟨le_trans h1 (min_le_left x z), ?_⟩
    intro y hy
    rcases List.mem_cons.mp hy with rfl | hy
    · exact le_trans h1 (min_le_right x y)
    · exact h2 y hy

theorem foldl_max_mem (xs : List ℚ) : ∀ x : ℚ, xs.foldl max x ∈ x :: xs := by
  induction xs with
  | nil => intro x; simp
  | cons y xs ih =>
    intro x
    rw [List.foldl_cons]
    rcases List.mem_cons.mp (ih (max x y)) with h | h
    · rcases max_choice x y with hm | hm
      · rw [h, hm]; exact List.mem_cons_self _ _
      · rw [h, hm]; exact List.mem_cons_of_mem _ (List.mem_cons_self _ _)
    · exact List.mem_cons_of_mem _ (List.mem_cons_of_mem _ h)

theorem foldl_max_ge (xs : List ℚ) :
    ∀ x : ℚ, x ≤ xs.foldl max x ∧ ∀ y ∈ xs, y ≤ xs.foldl max x := by
  induction xs with
  | nil => intro x; simp
  | cons z xs ih =>
    intro x
    rw [List.foldl_cons]
    obtain ⟨h1, h2⟩ := ih (max x z)
    refine ⟨le_trans (le_max_left x z) h1, ?_⟩
    intro y hy
    rcases List.mem_cons.mp hy with rfl | hy
    · exact le_trans (le_max_right x y) h1
    · exact h2 y hy

/-- `listMin` returns an element of the list that bounds it below. -/
theorem listMin_spec (l : List ℚ) (m : ℚ) (h : listMin l = some m) :
    m ∈ l ∧ ∀ y ∈ l, m ≤ y := by
  cases l with
  | nil => simp [listMin] at h
  | cons x xs =>
    simp only [listMin, Option.some.injEq] at h
    subst h
    refine ⟨foldl_min_mem xs x, ?_⟩
    intro y hy
    obtain ⟨h1, h2⟩ := foldl_min_le xs x
    rcases List.mem_cons.mp hy with rfl | hy
    · exact h1
    · exact h2 y hy

/-- `listMax` returns an element of the list that bounds it above. -/
theorem listMax_spec (l : List ℚ) (m : ℚ) (h : listMax l = some m) :
    m ∈ l ∧ ∀ y ∈ l, y ≤ m := by
  cases l with
  | nil => simp [listMax] at h
  | cons x xs =>
    simp only [listMax, Option.some.injEq] at h
    subst h
    refine ⟨foldl_max_mem xs x, ?_⟩
    intro y hy
    obtain ⟨h1, h2⟩ := foldl_max_ge xs x
    rcases List.mem_cons.mp hy with rfl | hy
    · exact h1
    · exact h2 y hy

/-- Structure of a successful `formatDay`: an aggregate header followed
by the joined hourly lines of the first four bucket entries. -/
theorem formatDay_shape (tz : Int) (p : String × List ForecastEntry) (s : String)
    (h : formatDay tz p = some s) :
    ∃ base lines, dayBase p.1 p.2 = some base ∧
      optMap (hourlyLine tz) (p.2.take 4) = some lines ∧
      s = base ++ String.join lines := by
  unfold formatDay at h
  cases hb : dayBase p.1 p.2 with
  | none => rw [hb] at h; simp at h
  | some base =>
    rw [hb] at h
    cases hl : optMap (hourlyLine tz) (p.2.take 4) with
    | none => rw [hl] at h; simp at h
    | some lines =>
      rw [hl] at h
      simp only [Option.some.injEq] at h
      exact ⟨base, lines, rfl, rfl, h.symm⟩

/-- A successful `dayBase` header names exactly the bucket's date. -/
theorem dayBase_date (date : String) (items : List ForecastEntry)
    (base : String) (h : dayBase date items = some base) :
    ∃ rest, base = "\nDate: " ++ (date ++ rest) := by
  unfold dayBase at h
  split at h
  · simp at h
  · split at h
    · simp at h
    · split at h
      · simp at h
      · split at h
        · simp at h
        · split at h
          · simp at h
          · split at h
            · simp at h
            · split at h
              · simp at h
              · simp only [Option.some.injEq] at h
                rw [← h]
                simp only [String.append_assoc]
                exact ⟨_, rfl⟩

/-! ## Claim theorems -/

/-- C7: whenever the Request Executor yields the absent result, `get_alerts`
returns the fixed-shape apology naming the requested location string (the
city, or "city,country_code" when a country code was given) and
`get_forecast` returns the fixed-shape apology naming the requested
coordinates; in the absent-result case both operations return text and
never raise. -/
theorem C7_absent_result_apology (tz : Int) (city country_code : String)
    (lat lon : ℚ) :
    get_alerts tz city country_code none =
      some ("Unable to fetch data for location: " ++
        (if country_code = "" then city else city ++ "," ++ country_code)) ∧
    get_forecast tz lat lon none =
      some ("Unable to fetch forecast data for location at coordinates: " ++
        strNum lat ++ ", " ++ strNum lon) :=
  ⟨rfl, rfl⟩

/-- C8: the Request Executor returns the parsed JSON document exactly when
the HTTP status is a success (2xx) and the body parsed; every failure
(transport error, timeout, non-success status, malformed body) is mapped
uniformly to the absent result, so the returned value cannot distinguish
failure causes. -/
theorem C8_request_executor {α : Type} (endpoint : String)
    (params : List (String × String)) (o : HttpOutcome α) :
    (∀ (st : Nat) (b : α), o = HttpOutcome.response st (some b) →
      (make_weather_request endpoint params o = some b ↔ isSuccessStatus st = true)) ∧
    (∀ b : α, make_weather_request endpoint params o = some b →
      ∃ st, o = HttpOutcome.response st (some b) ∧ isSuccessStatus st = true) ∧
    (httpFailed o = true → make_weather_request endpoint params o = none) ∧
    (∀ o₂ : HttpOutcome α, httpFailed o = true → httpFailed o₂ = true →
      make_weather_request endpoint params o = make_weather_request endpoint params o₂) := by
  have hfail : ∀ o' : HttpOutcome α, httpFailed o' = true →
      make_weather_request endpoint params o' = none := by
    intro o' h
    cases o' with
    | transportError => rfl
    | timeout => rfl
    | response st body =>
      simp only [httpFailed, Bool.or_eq_true, Bool.not_eq_true'] at h
      rcases h with h | h
      · simp [make_weather_request, h]
      · cases body with
        | none => simp [make_weather_request]
        | some b => simp at h
  refine ⟨?_, ?_, hfail o, ?_⟩
  · rintro st b rfl
    cases hs : isSuccessStatus st <;> simp [make_weather_request, hs]
  · intro b hb
    cases o with
    | transportError => simp [make_weather_request] at hb
    | timeout => simp [make_weather_request] at hb
    | response st body =>
      cases hs : isSuccessStatus st with
      | false => simp [make_weather_request, hs] at hb
      | true =>
        simp only [make_weather_request, hs, if_true] at hb
        exact ⟨st, by rw [hb], hs⟩
  · intro o₂ h1 h2
    rw [hfail o h1, hfail o₂ h2]

/-- C8 witness: a 200 response with a parsed body is returned as-is, and a
timeout yields the absent result. -/
theorem C8_request_executor_witness :
    make_weather_request "weather" [("q", "London")]
      (HttpOutcome.response 200 (some true)) = some true ∧
    make_weather_request "forecast" [("lat", "1")]
      (HttpOutcome.timeout : HttpOutcome Bool) = none :=
  ⟨((C8_request_executor "weather" [("q", "London")]
      (HttpOutcome.response 200 (some true))).1 200 true rfl).mpr (by decide),
   (C8_request_executor "forecast" [("lat", "1")]
      (HttpOutcome.timeout : HttpOutcome Bool)).2.2.1 (by decide)⟩

/-- C10: a successful response whose parsed body is the empty JSON object
is treated exactly like the absent result — both operations test the
result for falsiness, so `{}` produces the apology sentence, not a report
full of placeholders. -/
theorem C10_falsy_empty_body (tz : Int) (city country_code : String)
    (lat lon : ℚ) :
    get_alerts tz city country_code (some emptyCurrent) =
      get_alerts tz city country_code none ∧
    get_forecast tz lat lon (some emptyForecastR) =
      get_forecast tz lat lon none ∧
    get_alerts tz city country_code (some emptyCurrent) =
      some ("Unable to fetch data for location: " ++
        (if country_code = "" then city else city ++ "," ++ country_code)) ∧
    get_forecast tz lat lon (some emptyForecastR) =
      some ("Unable to fetch forecast data for location at coordinates: " ++
        strNum lat ++ ", " ++ strNum lon) :=
  ⟨rfl, rfl, rfl, rfl⟩

/-- C9: on a successful current-weather response, the sunrise slot of the
report renders the human-readable local-time string derived from the Unix
timestamp exactly when the `"sunrise"` key is present in the system block
and renders "N/A" otherwise, and likewise for sunset. -/
theorem C9_sunrise_sunset (tz : Int) (city country_code : String)
    (r : CurrentResponse) (w : WeatherCond) (ws : List WeatherCond)
    (hnf : r.isFalsy = false)
    (hw : r.weather.getD [emptyCond] = w :: ws) :
    (∀ t, (r.sys.getD emptySys).sunrise = some t →
      sunTimeStr tz (r.sys.getD emptySys).sunrise = format_unix_time tz t) ∧
    ((r.sys.getD emptySys).sunrise = none →
      sunTimeStr tz (r.sys.getD emptySys).sunrise = "N/A") ∧
    (∀ t, (r.sys.getD emptySys).sunset = some t →
      sunTimeStr tz (r.sys.getD emptySys).sunset = format_unix_time tz t) ∧
    ((r.sys.getD emptySys).sunset = none →
      sunTimeStr tz (r.sys.getD emptySys).sunset = "N/A") ∧
    ∃ pre, get_alerts tz city country_code (some r) =
      some (pre ++ ("Sunrise: " ++ (sunTimeStr tz (r.sys.getD emptySys).sunrise ++
        ("\nSunset: " ++ (sunTimeStr tz (r.sys.getD emptySys).sunset ++ "\n"))))) := by
  refine ⟨?_, ?_, ?_, ?_, ?_⟩
  · intro t ht; rw [ht]; rfl
  · intro ht; rw [ht]; rfl
  · intro t ht; rw [ht]; rfl
  · intro ht; rw [ht]; rfl
  · refine ⟨"Current Weather for " ++
      r.name.getD (if country_code = "" then city else city ++ "," ++ country_code) ++
      ", " ++ (r.sys.getD emptySys).country.getD "" ++ ":\n\nWeather: " ++
      w.main.getD "Unknown" ++ " - " ++ w.description.getD "Unknown" ++
      "\nTemperature: " ++ renderNum (r.main.getD emptyMain).temp ++
      "°C (Feels like: " ++ renderNum (r.main.getD emptyMain).feels_like ++
      "°C)\nMin/Max: " ++ renderNum (r.main.getD emptyMain).temp_min ++
      "°C / " ++ renderNum (r.main.getD emptyMain).temp_max ++
      "°C\nHumidity: " ++ renderNum (r.main.getD emptyMain).humidity ++
      "%\nPressure: " ++ renderNum (r.main.getD emptyMain).pressure ++
      " hPa\nWind: " ++ renderNum (r.wind.getD emptyWind).speed ++
      " m/s, Direction: " ++ renderNum (r.wind.getD emptyWind).deg ++
      "°\n", ?_⟩
    simp only [get_alerts, hnf, Bool.false_eq_true, if_false, hw]
    simp only [String.append_assoc]

/-- C1 counterexample: a well-formed forecast response whose single series
entry is merely missing its optional wind block makes `get_forecast` hit a
KeyError (modelled `none`) instead of rendering an "N/A" placeholder, so
the claim fails for `get_forecast`. -/
theorem C1_counterexample :
    c1Entry.wind = none ∧ (¬ c1Resp.isFalsy = true) ∧
    get_forecast 0 1 2 (some c1Resp) = none := by
  refine ⟨rfl, by decide, by decide⟩

/-- C1 (amended): for every non-falsy current-weather response (with the
condition list absent or non-empty), `get_alerts` completes and renders
every optional slot from the response through the documented defaults, so
each individually missing block or measurement shows its placeholder:
`renderNum none = "N/A"`, a missing time "N/A", a missing condition list
the all-default condition entry whose texts render "Unknown", and missing
`main`/`wind`/`sys` blocks the all-`none` defaults.  `get_forecast`, by
contrast, substitutes placeholders only for city metadata and condition
lists: a series entry missing its `main` block, `temp_min`, `temp_max`,
`humidity`, `wind` block or wind `speed` makes its day aggregation raise;
a kept entry missing `dt`, `main`, `temp` or the `weather` key makes its
hourly line raise; and any such failure in a kept bucket makes
`get_forecast` itself raise instead of rendering a placeholder. -/
theorem C1_amended_placeholders (tz : Int) (city country_code : String)
    (r : CurrentResponse) (w : WeatherCond) (ws : List WeatherCond)
    (hnf : r.isFalsy = false)
    (hw : r.weather.getD [emptyCond] = w :: ws) :
    get_alerts tz city country_code (some r) =
      some ("Current Weather for " ++
        r.name.getD (if country_code = "" then city else city ++ "," ++ country_code) ++
        ", " ++ (r.sys.getD emptySys).country.getD "" ++ ":\n\nWeather: " ++
        w.main.getD "Unknown" ++ " - " ++ w.description.getD "Unknown" ++
        "\nTemperature: " ++ renderNum (r.main.getD emptyMain).temp ++
        "°C (Feels like: " ++ renderNum (r.main.getD emptyMain).feels_like ++
        "°C)\nMin/Max: " ++ renderNum (r.main.getD emptyMain).temp_min ++
        "°C / " ++ renderNum (r.main.getD emptyMain).temp_max ++
        "°C\nHumidity: " ++ renderNum (r.main.getD emptyMain).humidity ++
        "%\nPressure: " ++ renderNum (r.main.getD emptyMain).pressure ++
        " hPa\nWind: " ++ renderNum (r.wind.getD emptyWind).speed ++
        " m/s, Direction: " ++ renderNum (r.wind.getD emptyWind).deg ++
        "°\n" ++ "Sunrise: " ++ sunTimeStr tz (r.sys.getD emptySys).sunrise ++
        "\nSunset: " ++ sunTimeStr tz (r.sys.getD emptySys).sunset ++ "\n") ∧
    renderNum none = "N/A" ∧
    sunTimeStr tz none = "N/A" ∧
    (r.weather = none → r.weather.getD [emptyCond] = [emptyCond]) ∧
    emptyCond.main.getD "Unknown" = "Unknown" ∧
    emptyCond.description.getD "Unknown" = "Unknown" ∧
    (r.main = none → r.main.getD emptyMain = emptyMain) ∧
    (r.wind = none → r.wind.getD emptyWind = emptyWind) ∧
    (r.sys = none → r.sys.getD emptySys = emptySys) ∧
    emptyMain.temp_min = none ∧ emptyWind.speed = none ∧
    emptySys.sunrise = none ∧
    (∀ (items : List ForecastEntry) (mi : ForecastEntry),
      items[items.length / 2]? = some mi →
      (mi.weather = none ∨ mi.weather = some []) →
      dayDesc items = some "Unknown") ∧
    (∀ (tz' t : Int) (it : ForecastEntry) (m : MainBlock) (temp : ℚ),
      it.dt = some t → it.main = some m → m.temp = some temp →
      it.weather = some [] →
      hourlyLine tz' it = some ("  " ++ timeHM tz' t ++ ": " ++
        formatFixed1 temp ++ "°C, " ++ "Unknown" ++ "\n")) ∧
    (∀ (date : String) (items : List ForecastEntry) (it : ForecastEntry),
      it ∈ items →
      (it.main = none ∨
       (∃ m, it.main = some m ∧ m.temp_min = none) ∨
       (∃ m, it.main = some m ∧ m.temp_max = none) ∨
       (∃ m, it.main = some m ∧ m.humidity = none) ∨
       it.wind = none ∨
       (∃ wd, it.wind = some wd ∧ wd.speed = none)) →
      dayBase date items = none) ∧
    (∀ (tz' : Int) (it : ForecastEntry),
      (it.dt = none ∨ it.main = none ∨
       (∃ m, it.main = some m ∧ m.temp = none) ∨ it.weather = none) →
      hourlyLine tz' it = none) ∧
    (∀ (tz' : Int) (p : String × List ForecastEntry),
      dayBase p.1 p.2 = none → formatDay tz' p = none) ∧
    (∀ (tz' : Int) (lat lon : ℚ) (rf : ForecastResponse)
       (gs : List (String × List ForecastEntry)) (p : String × List ForecastEntry),
      rf.isFalsy = false →
      groupByDay tz' (rf.list.getD []) = some gs →
      p ∈ gs.take 5 → formatDay tz' p = none →
      get_forecast tz' lat lon (some rf) = none) ∧
    (∀ (tz' : Int) (lat lon : ℚ) (rf : ForecastResponse)
       (gs : List (String × List ForecastEntry)) (blocks : List String),
      rf.isFalsy = false → rf.city = none →
      groupByDay tz' (rf.list.getD []) = some gs →
      optMap (formatDay tz') (gs.take 5) = some blocks →
      get_forecast tz' lat lon (some rf) =
        some ("5-Day Weather Forecast for " ++ "Unknown Location" ++ ", " ++
          "" ++ "\n" ++ String.intercalate "\n---\n" blocks)) := by
  refine ⟨?_, rfl, rfl, ?_, rfl, rfl, ?_, ?_, ?_, rfl, rfl, rfl, ?_, ?_, ?_, ?_, ?_, ?_, ?_⟩
  · simp only [get_alerts, hnf, Bool.false_eq_true, if_false, hw]
  · intro h; rw [h]; rfl
  · intro h; rw [h]; rfl
  · intro h; rw [h]; rfl
  · intro h; rw [h]; rfl
  · intro items mi hmi hwmi
    rcases hwmi with h | h <;> simp [dayDesc, hmi, h]
  · intro tz' t it m temp hdt hm' htemp hwit
    simp [hourlyLine, hdt, hm', htemp, hwit]
  · intro date items it hmem hdef
    cases hdb : dayBase date items with
    | none => rfl
    | some base =>
      exfalso
      obtain ⟨⟨mins, h1⟩, ⟨maxs, h2⟩, ⟨hums, h3⟩, ⟨winds, h4⟩⟩ :=
        dayBase_stages date items base hdb
      rcases hdef with h | ⟨m, hm, hf⟩ | ⟨m, hm, hf⟩ | ⟨m, hm, hf⟩ | h | ⟨wd, hwd, hf⟩
      · have hx := optMap_mem_some _ items mins h1 it hmem
        simp [h] at hx
      · have hx := optMap_mem_some _ items mins h1 it hmem
        simp [hm, hf] at hx
      · have hx := optMap_mem_some _ items maxs h2 it hmem
        simp [hm, hf] at hx
      · have hx := optMap_mem_some _ items hums h3 it hmem
        simp [hm, hf] at hx
      · have hx := optMap_mem_some _ items winds h4 it hmem
        simp [h] at hx
      · have hx := optMap_mem_some _ items winds h4 it hmem
        simp [hwd, hf] at hx
  · intro tz' it hdef
    rcases hdef with h | h | ⟨m, hm, hf⟩ | h
    · simp [hourlyLine, h]
    · cases hdt : it.dt <;> simp [hourlyLine, hdt, h]
    · cases hdt : it.dt <;> simp [hourlyLine, hdt, hm, hf]
    · cases hdt : it.dt with
      | none => simp [hourlyLine, hdt]
      | some t =>
        cases hmn : it.main with
        | none => simp [hourlyLine, hdt, hmn]
        | some m =>
          cases htp : m.temp with
          | none => simp [hourlyLine, hdt, hmn, htp]
          | some temp => simp [hourlyLine, hdt, hmn, htp, h]
  · intro tz' p h
    simp [formatDay, h]
  · intro tz' lat lon rf gs p hnf' hgs hp hfd
    have hnone : optMap (formatDay tz') (gs.take 5) = none :=
      optMap_none_of_mem (formatDay tz') (gs.take 5) p hp hfd
    simp [get_forecast, hnf', hgs, hnone]
  · intro tz' lat lon rf gs blocks hnf' hcity hgs hb
    simp [get_forecast, hnf', hcity, hgs, hb, emptyCity]

/-- C5: the representative description of a non-empty day bucket comes from
the entry at index `len // 2`: it is that entry's own first condition
description when the entry has a non-empty condition list and "Unknown"
when the list is missing or empty; in particular a 3-entry bucket reads
index 1 and a 4-entry bucket index 2. -/
theorem C5_middle_description (items : List ForecastEntry) (mi : ForecastEntry)
    (h : items[items.length / 2]? = some mi) :
    ((mi.weather = none ∨ mi.weather = some []) →
      dayDesc items = some "Unknown") ∧
    (∀ (c : WeatherCond) (cs : List WeatherCond),
      mi.weather = some (c :: cs) → dayDesc items = c.description) ∧
    (items.length = 3 → items[1]? = some mi) ∧
    (items.length = 4 → items[2]? = some mi) := by
  refine ⟨?_, ?_, ?_, ?_⟩
  · intro hwmi
    rcases hwmi with hw | hw <;> simp [dayDesc, h, hw]
  · intro c cs hw
    simp [dayDesc, h, hw]
  · intro hl
    rw [hl] at h
    simpa using h
  · intro hl
    rw [hl] at h
    simpa using h

/-- C6 counterexample: in a two-entry bucket whose FIRST entry lacks a
condition list, the representative description is the middle (second)
entry's own description, not "Unknown" — refuting the claim as stated. -/
theorem C6_counterexample :
    c6First.weather = some [] ∧
    dayDesc [c6First, c6Second] = some "rain" ∧
    ¬ dayDesc [c6First, c6Second] = some "Unknown" := by
  refine ⟨rfl, by decide, by decide⟩

/-- C6 (amended): for every day bucket whose MIDDLE-indexed (`len // 2`)
entry lacks a condition list (missing or empty), the representative
description renders "Unknown", but the hourly detail lines are unaffected:
each hourly line independently renders "Unknown" exactly when its own
condition list is present but empty, and otherwise renders its own entry's
first description. -/
theorem C6_amended_middle_unknown (items : List ForecastEntry)
    (mi : ForecastEntry)
    (hmi : items[items.length / 2]? = some mi)
    (hlacks : mi.weather = none ∨ mi.weather = some []) :
    dayDesc items = some "Unknown" ∧
    (∀ (tz t : Int) (it : ForecastEntry) (m : MainBlock) (temp : ℚ),
      it.dt = some t → it.main = some m → m.temp = some temp →
      (it.weather = some [] →
        hourlyLine tz it = some ("  " ++ timeHM tz t ++ ": " ++
          formatFixed1 temp ++ "°C, " ++ "Unknown" ++ "\n")) ∧
      (∀ (c : WeatherCond) (cs : List WeatherCond) (d : String),
        it.weather = some (c :: cs) → c.description = some d →
        hourlyLine tz it = some ("  " ++ timeHM tz t ++ ": " ++
          formatFixed1 temp ++ "°C, " ++ d ++ "\n"))) := by
  constructor
  · rcases hlacks with hw | hw <;> simp [dayDesc, hmi, hw]
  · intro tz t it m temp hdt hm' htemp
    constructor
    · intro hwit
      simp [hourlyLine, hdt, hm', htemp, hwit]
    · intro c cs d hwit hd
      simp [hourlyLine, hdt, hm', htemp, hwit, hd]

/-- C2: grouping a forecast series of timestamped entries yields exactly
one bucket per distinct derived calendar date (D buckets, with the key
list being the distinct dates in first-encounter order, without
duplicates); each bucket is precisely the subsequence of entries whose
derived date matches its key, in the entries' original relative order;
and every bucket is non-empty, so the per-bucket means are well-defined. -/
theorem C2_day_bucketing (tz : Int) (es : List ForecastEntry)
    (h : ∀ e ∈ es, (e.dt).isSome = true) :
    ∃ gs, groupByDay tz es = some gs ∧
      keysOf gs = distinctFirst (datesOf tz es) ∧
      (distinctFirst (datesOf tz es)).Nodup ∧
      (∀ a, a ∈ distinctFirst (datesOf tz es) ↔ a ∈ datesOf tz es) ∧
      gs.length = (distinctFirst (datesOf tz es)).length ∧
      (∀ p ∈ gs, p.2 = es.filter (fun e => entryDate tz e == p.1)) ∧
      (∀ p ∈ gs, p.2 ≠ []) := by
  obtain ⟨gs, hrun, hkeys, _, hmem, hne⟩ := groupByDay_spec tz es h
  refine ⟨gs, hrun, hkeys, distinctFirst_nodup _,
    fun a => mem_distinctFirst _ a, ?_, hmem, hne⟩
  rw [← hkeys]
  simp [keysOf]

/-- C2 witness: three entries over two days group into the two expected
buckets. -/
theorem C2_day_bucketing_witness :
    (∀ e ∈ [w1, w2, w3], (e.dt).isSome = true) ∧
    (∃ gs, groupByDay 0 [w1, w2, w3] = some gs ∧
      keysOf gs = distinctFirst (datesOf 0 [w1, w2, w3]) ∧
      (distinctFirst (datesOf 0 [w1, w2, w3])).Nodup ∧
      (∀ a, a ∈ distinctFirst (datesOf 0 [w1, w2, w3]) ↔
        a ∈ datesOf 0 [w1, w2, w3]) ∧
      gs.length = (distinctFirst (datesOf 0 [w1, w2, w3])).length ∧
      (∀ p ∈ gs, p.2 = [w1, w2, w3].filter (fun e => entryDate 0 e == p.1)) ∧
      (∀ p ∈ gs, p.2 ≠ [])) :=
  ⟨by decide, C2_day_bucketing 0 [w1, w2, w3] (by decide)⟩

/-- C3: the rendered forecast report consists of the header followed by
the day blocks of exactly the first five buckets in first-encounter
(insertion) order — the kept keys are `(distinctFirst dates).take 5` —
and each rendered day block lists the hourly lines of at most the first
four entries of its bucket, in their original order. -/
theorem C3_day_and_hourly_limits (tz : Int) (lat lon : ℚ)
    (r : ForecastResponse) (gs : List (String × List ForecastEntry))
    (blocks : List String)
    (hnf : r.isFalsy = false)
    (hgs : groupByDay tz (r.list.getD []) = some gs)
    (hb : optMap (formatDay tz) (gs.take 5) = some blocks) :
    get_forecast tz lat lon (some r) =
      some ("5-Day Weather Forecast for " ++
        (r.city.getD emptyCity).name.getD "Unknown Location" ++ ", " ++
        (r.city.getD emptyCity).country.getD "" ++ "\n" ++
        String.intercalate "\n---\n" blocks) ∧
    blocks.length = min 5 gs.length ∧
    keysOf (gs.take 5) = (distinctFirst (datesOf tz (r.list.getD []))).take 5 ∧
    (∀ (i : Nat) (b : String) (p : String × List ForecastEntry),
      blocks.get? i = some b → (gs.take 5).get? i = some p →
      ∃ base lines rest,
        dayBase p.1 p.2 = some base ∧
        optMap (hourlyLine tz) (p.2.take 4) = some lines ∧
        lines.length = min 4 p.2.length ∧
        b = base ++ String.join lines ∧
        base = "\nDate: " ++ (p.1 ++ rest)) := by
  refine ⟨?_, ?_, ?_, ?_⟩
  · simp only [get_forecast, hnf, Bool.false_eq_true, if_false, hgs, hb]
  · rw [optMap_length (formatDay tz) (gs.take 5) blocks hb, List.length_take]
  · have hdt : ∀ e ∈ r.list.getD [], (e.dt).isSome = true := by
      apply groupByDayAux_dt tz (r.list.getD []) [] gs
      simpa [groupByDay] using hgs
    obtain ⟨gs₀, hrun₀, hkeys₀, _, _, _⟩ := groupByDay_spec tz (r.list.getD []) hdt
    have hgseq : gs₀ = gs := by
      rw [hgs] at hrun₀
      exact (Option.some.inj hrun₀).symm
    rw [← hgseq, show keysOf (gs₀.take 5) = (keysOf gs₀).take 5 from by
      simp [keysOf, List.map_take], hkeys₀]
  · intro i b p hbi hpi
    have hfd : formatDay tz p = some b := optMap_get (formatDay tz) _ _ hb i p b hpi hbi
    obtain ⟨base, lines, hbase, hlines, hshape⟩ := formatDay_shape tz p b hfd
    obtain ⟨rest, hrest⟩ := dayBase_date p.1 p.2 base hbase
    refine ⟨base, lines, rest, hbase, hlines, ?_, hshape, hrest⟩
    rw [optMap_length (hourlyLine tz) (p.2.take 4) lines hlines, List.length_take]

/-- C3 witness: a one-entry response renders its single day block. -/
theorem C3_day_and_hourly_limits_witness :
    c3Resp.isFalsy = false ∧
    groupByDay 0 (c3Resp.list.getD []) = some [("1970-01-01", [w1])] ∧
    optMap (formatDay 0) ([("1970-01-01", [w1])].take 5) = some [c3Block] ∧
    (get_forecast 0 1 2 (some c3Resp) =
      some ("5-Day Weather Forecast for " ++
        (c3Resp.city.getD emptyCity).name.getD "Unknown Location" ++ ", " ++
        (c3Resp.city.getD emptyCity).country.getD "" ++ "\n" ++
        String.intercalate "\n---\n" [c3Block]) ∧
    [c3Block].length = min 5 [("1970-01-01", [w1])].length ∧
    keysOf ([("1970-01-01", [w1])].take 5) =
      (distinctFirst (datesOf 0 (c3Resp.list.getD []))).take 5 ∧
    (∀ (i : Nat) (b : String) (p : String × List ForecastEntry),
      [c3Block].get? i = some b →
      ([("1970-01-01", [w1])].take 5).get? i = some p →
      ∃ base lines rest,
        dayBase p.1 p.2 = some base ∧
        optMap (hourlyLine 0) (p.2.take 4) = some lines ∧
        lines.length = min 4 p.2.length ∧
        b = base ++ String.join lines ∧
        base = "\nDate: " ++ (p.1 ++ rest))) :=
  ⟨by decide, by decide, by decide,
   C3_day_and_hourly_limits 0 1 2 c3Resp [("1970-01-01", [w1])] [c3Block]
     (by decide) (by decide) (by decide)⟩

/-- C4: for a non-empty day bucket, the rendered aggregates are the
minimum of the entries' `temp_min` values and the maximum of their
`temp_max` values (both to one decimal place), the arithmetic mean of
their humidities rounded to the nearest integer (ties to even), and the
arithmetic mean of their wind speeds to one decimal place; the rendered
minimum is a member of and lower bound for the `temp_min` values, and
symmetrically for the maximum. -/
theorem C4_day_aggregates (date : String) (items : List ForecastEntry)
    (mins maxs hums winds : List ℚ) (mn mx : ℚ) (desc : String)
    (hmins : optMap (fun it => it.main.bind MainBlock.temp_min) items = some mins)
    (hmn : listMin mins = some mn)
    (hmaxs : optMap (fun it => it.main.bind MainBlock.temp_max) items = some maxs)
    (hmx : listMax maxs = some mx)
    (hdesc : dayDesc items = some desc)
    (hhums : optMap (fun it => it.main.bind MainBlock.humidity) items = some hums)
    (hwinds : optMap (fun it => it.wind.bind WindBlock.speed) items = some winds) :
    dayBase date items =
      some ("\nDate: " ++ date ++ "\nTemperature: Min: " ++ formatFixed1 mn ++
        "°C, Max: " ++ formatFixed1 mx ++ "°C\nWeather: " ++ desc ++
        "\nAvg. Humidity: " ++ formatFixed0 (hums.sum / (items.length : ℚ)) ++
        "%\nAvg. Wind Speed: " ++
        formatFixed1 (winds.sum / (items.length : ℚ)) ++
        " m/s\n\nHourly Details:\n") ∧
    mn ∈ mins ∧ (∀ y ∈ mins, mn ≤ y) ∧ mx ∈ maxs ∧ (∀ y ∈ maxs, y ≤ mx) := by
  obtain ⟨hmem1, hle⟩ := listMin_spec mins mn hmn
  obtain ⟨hmem2, hge⟩ := listMax_spec maxs mx hmx
  refine ⟨?_, hmem1, hle, hmem2, hge⟩
  simp only [dayBase, hmins, hmn, hmaxs, hmx, hdesc, hhums, hwinds]

/-- C4 witness: the bucket with temp_min [10, 12, 9], temp_max
[20, 22, 21], humidity [50, 60, 70] and wind [1, 2, 3] renders min 9.0,
max 22.0, humidity 60 and wind 2.0. -/
theorem C4_day_aggregates_witness :
    optMap (fun it => it.main.bind MainBlock.temp_min) [c4a, c4b, c4c] =
      some [10, 12, 9] ∧
    listMin [10, 12, 9] = some 9 ∧
    optMap (fun it => it.main.bind MainBlock.temp_max) [c4a, c4b, c4c] =
      some [20, 22, 21] ∧
    listMax [20, 22, 21] = some 22 ∧
    dayDesc [c4a, c4b, c4c] = some "scattered clouds" ∧
    optMap (fun it => it.main.bind MainBlock.humidity) [c4a, c4b, c4c] =
      some [50, 60, 70] ∧
    optMap (fun it => it.wind.bind WindBlock.speed) [c4a, c4b, c4c] =
      some [1, 2, 3] ∧
    (dayBase "2024-06-01" [c4a, c4b, c4c] =
      some ("\nDate: " ++ "2024-06-01" ++ "\nTemperature: Min: " ++
        formatFixed1 9 ++ "°C, Max: " ++ formatFixed1 22 ++
        "°C\nWeather: " ++ "scattered clouds" ++
        "\nAvg. Humidity: " ++
        formatFixed0 ([(50 : ℚ), 60, 70].sum / (([c4a, c4b, c4c].length : ℚ))) ++
        "%\nAvg. Wind Speed: " ++
        formatFixed1 ([(1 : ℚ), 2, 3].sum / (([c4a, c4b, c4c].length : ℚ))) ++
        " m/s\n\nHourly Details:\n") ∧
      (9 : ℚ) ∈ [(10 : ℚ), 12, 9] ∧ (∀ y ∈ [(10 : ℚ), 12, 9], 9 ≤ y) ∧
      (22 : ℚ) ∈ [(20 : ℚ), 22, 21] ∧ (∀ y ∈ [(20 : ℚ), 22, 21], y ≤ 22)) ∧
    formatFixed1 9 = "9.0" ∧ formatFixed1 22 = "22.0" ∧
    formatFixed0 ([(50 : ℚ), 60, 70].sum / 3) = "60" ∧
    formatFixed1 ([(1 : ℚ), 2, 3].sum / 3) = "2.0" :=
  ⟨by decide, by decide, by decide, by decide, by decide, by decide, by decide,
   C4_day_aggregates "2024-06-01" [c4a, c4b, c4c] [10, 12, 9] [20, 22, 21]
     [50, 60, 70] [1, 2, 3] 9 22 "scattered clouds"
     (by decide) (by decide) (by decide) (by decide) (by decide) (by decide)
     (by decide),
   by decide, by decide, by decide, by decide⟩

set_option maxRecDepth 4096 in
/-- C1 witness: a response with a mixed pattern of present and missing
sub-fields (main present but feels_like/temp_min/pressure absent, wind
block absent, sys present but sunrise/country absent) renders exactly the
present values and "N/A" placeholders for the absent ones, and the
forecast-side failure facts are obtained at the same instantiation. -/
theorem C1_amended_placeholders_witness :
    c1Partial.isFalsy = false ∧
    c1Partial.weather.getD [emptyCond] = condClear :: [] ∧
    (get_alerts 0 "London" "" (some c1Partial) =
      some ("Current Weather for " ++
        c1Partial.name.getD (if "" = "" then "London" else "London" ++ "," ++ "") ++
        ", " ++ (c1Partial.sys.getD emptySys).country.getD "" ++ ":\n\nWeather: " ++
        condClear.main.getD "Unknown" ++ " - " ++ condClear.description.getD "Unknown" ++
        "\nTemperature: " ++ renderNum (c1Partial.main.getD emptyMain).temp ++
        "°C (Feels like: " ++ renderNum (c1Partial.main.getD emptyMain).feels_like ++
        "°C)\nMin/Max: " ++ renderNum (c1Partial.main.getD emptyMain).temp_min ++
        "°C / " ++ renderNum (c1Partial.main.getD emptyMain).temp_max ++
        "°C\nHumidity: " ++ renderNum (c1Partial.main.getD emptyMain).humidity ++
        "%\nPressure: " ++ renderNum (c1Partial.main.getD emptyMain).pressure ++
        " hPa\nWind: " ++ renderNum (c1Partial.wind.getD emptyWind).speed ++
        " m/s, Direction: " ++ renderNum (c1Partial.wind.getD emptyWind).deg ++
        "°\n" ++ "Sunrise: " ++ sunTimeStr 0 (c1Partial.sys.getD emptySys).sunrise ++
        "\nSunset: " ++ sunTimeStr 0 (c1Partial.sys.getD emptySys).sunset ++ "\n") ∧
    renderNum none = "N/A" ∧
    sunTimeStr 0 none = "N/A" ∧
    (c1Partial.weather = none → c1Partial.weather.getD [emptyCond] = [emptyCond]) ∧
    emptyCond.main.getD "Unknown" = "Unknown" ∧
    emptyCond.description.getD "Unknown" = "Unknown" ∧
    (c1Partial.main = none → c1Partial.main.getD emptyMain = emptyMain) ∧
    (c1Partial.wind = none → c1Partial.wind.getD emptyWind = emptyWind) ∧
    (c1Partial.sys = none → c1Partial.sys.getD emptySys = emptySys) ∧
    emptyMain.temp_min = none ∧ emptyWind.speed = none ∧
    emptySys.sunrise = none ∧
    (∀ (items : List ForecastEntry) (mi : ForecastEntry),
      items[items.length / 2]? = some mi →
      (mi.weather = none ∨ mi.weather = some []) →
      dayDesc items = some "Unknown") ∧
    (∀ (tz' t : Int) (it : ForecastEntry) (m : MainBlock) (temp : ℚ),
      it.dt = some t → it.main = some m → m.temp = some temp →
      it.weather = some [] →
      hourlyLine tz' it = some ("  " ++ timeHM tz' t ++ ": " ++
        formatFixed1 temp ++ "°C, " ++ "Unknown" ++ "\n")) ∧
    (∀ (date : String) (items : List ForecastEntry) (it : ForecastEntry),
      it ∈ items →
      (it.main = none ∨
       (∃ m, it.main = some m ∧ m.temp_min = none) ∨
       (∃ m, it.main = some m ∧ m.temp_max = none) ∨
       (∃ m, it.main = some m ∧ m.humidity = none) ∨
       it.wind = none ∨
       (∃ wd, it.wind = some wd ∧ wd.speed = none)) →
      dayBase date items = none) ∧
    (∀ (tz' : Int) (it : ForecastEntry),
      (it.dt = none ∨ it.main = none ∨
       (∃ m, it.main = some m ∧ m.temp = none) ∨ it.weather = none) →
      hourlyLine tz' it = none) ∧
    (∀ (tz' : Int) (p : String × List ForecastEntry),
      dayBase p.1 p.2 = none → formatDay tz' p = none) ∧
    (∀ (tz' : Int) (lat lon : ℚ) (rf : ForecastResponse)
       (gs : List (String × List ForecastEntry)) (p : String × List ForecastEntry),
      rf.isFalsy = false →
      groupByDay tz' (rf.list.getD []) = some gs →
      p ∈ gs.take 5 → formatDay tz' p = none →
      get_forecast tz' lat lon (some rf) = none) ∧
    (∀ (tz' : Int) (lat lon : ℚ) (rf : ForecastResponse)
       (gs : List (String × List ForecastEntry)) (blocks : List String),
      rf.isFalsy = false → rf.city = none →
      groupByDay tz' (rf.list.getD []) = some gs →
      optMap (formatDay tz') (gs.take 5) = some blocks →
      get_forecast tz' lat lon (some rf) =
        some ("5-Day Weather Forecast for " ++ "Unknown Location" ++ ", " ++
          "" ++ "\n" ++ String.intercalate "\n---\n" blocks))) ∧
    get_alerts 0 "London" "" (some c1Partial) =
      some "Current Weather for London, :\n\nWeather: Clear - clear\nTemperature: 15°C (Feels like: N/A°C)\nMin/Max: N/A°C / 20°C\nHumidity: 50%\nPressure: N/A hPa\nWind: N/A m/s, Direction: N/A°\nSunrise: N/A\nSunset: 2023-11-14 22:13:20\n" :=
  ⟨rfl, rfl,
   C1_amended_placeholders 0 "London" "" c1Partial condClear [] rfl rfl,
   by decide⟩

/-- C5 witness: in the 3-entry bucket the description is read from index
1 (= 3 // 2), the middle entry. -/
theorem C5_middle_description_witness :
    ([c4a, c4b, c4c])[([c4a, c4b, c4c].length / 2)]? = some c4b ∧
    (((c4b.weather = none ∨ c4b.weather = some []) →
      dayDesc [c4a, c4b, c4c] = some "Unknown") ∧
    (∀ (c : WeatherCond) (cs : List WeatherCond),
      c4b.weather = some (c :: cs) → dayDesc [c4a, c4b, c4c] = c.description) ∧
    ([c4a, c4b, c4c].length = 3 → ([c4a, c4b, c4c])[1]? = some c4b) ∧
    ([c4a, c4b, c4c].length = 4 → ([c4a, c4b, c4c])[2]? = some c4b)) :=
  ⟨by decide, C5_middle_description [c4a, c4b, c4c] c4b (by decide)⟩

/-- C6 witness: a two-entry bucket whose middle (second) entry has an
empty condition list renders "Unknown" for the representative
description, while hourly lines keep their independent behaviour. -/
theorem C6_amended_middle_unknown_witness :
    ([c6Second, c6First])[([c6Second, c6First].length / 2)]? = some c6First ∧
    (c6First.weather = none ∨ c6First.weather = some []) ∧
    (dayDesc [c6Second, c6First] = some "Unknown" ∧
     (∀ (tz t : Int) (it : ForecastEntry) (m : MainBlock) (temp : ℚ),
       it.dt = some t → it.main = some m → m.temp = some temp →
       (it.weather = some [] →
         hourlyLine tz it = some ("  " ++ timeHM tz t ++ ": " ++
           formatFixed1 temp ++ "°C, " ++ "Unknown" ++ "\n")) ∧
       (∀ (c : WeatherCond) (cs : List WeatherCond) (d : String),
         it.weather = some (c :: cs) → c.description = some d →
         hourlyLine tz it = some ("  " ++ timeHM tz t ++ ": " ++
           formatFixed1 temp ++ "°C, " ++ d ++ "\n")))) :=
  ⟨by decide, by decide,
   C6_amended_middle_unknown [c6Second, c6First] c6First (by decide) (by decide)⟩

/-- C9 witness: a response with a sunrise timestamp and no sunset renders
the formatted sunrise string and "N/A" for sunset. -/
theorem C9_sunrise_sunset_witness :
    c9Resp.isFalsy = false ∧
    c9Resp.weather.getD [emptyCond] =
      (⟨some "Rain", some "light rain"⟩ : WeatherCond) :: [] ∧
    ((∀ t, (c9Resp.sys.getD emptySys).sunrise = some t →
      sunTimeStr 0 (c9Resp.sys.getD emptySys).sunrise = format_unix_time 0 t) ∧
    ((c9Resp.sys.getD emptySys).sunrise = none →
      sunTimeStr 0 (c9Resp.sys.getD emptySys).sunrise = "N/A") ∧
    (∀ t, (c9Resp.sys.getD emptySys).sunset = some t →
      sunTimeStr 0 (c9Resp.sys.getD emptySys).sunset = format_unix_time 0 t) ∧
    ((c9Resp.sys.getD emptySys).sunset = none →
      sunTimeStr 0 (c9Resp.sys.getD emptySys).sunset = "N/A") ∧
    ∃ pre, get_alerts 0 "London" "GB" (some c9Resp) =
      some (pre ++ ("Sunrise: " ++
        (sunTimeStr 0 (c9Resp.sys.getD emptySys).sunrise ++
          ("\nSunset: " ++
            (sunTimeStr 0 (c9Resp.sys.getD emptySys).sunset ++ "\n")))))) :=
  ⟨rfl, rfl,
   C9_sunrise_sunset 0 "London" "GB" c9Resp
     (⟨some "Rain", some "light rain"⟩ : WeatherCond) [] rfl rfl⟩
